import Mathlib

/-!
Shallow embedding of the embassy UARTE driver (src/embassy-nrf/src/uarte.rs)
and of the PeripheralMutex (src/embassy-rp/src/util/peripheral.rs).

Hardware registers are modelled as plain record fields; every memory-mapped
register write performed by the driver is additionally recorded in an explicit
write trace (a list of RegWrite), so that frame conditions of the form
"performs no hardware register write" become statements about that trace.
A fatal assertion failure in the Rust source is modelled as an Option result
that is none, paired with the trace of writes performed before the abort.

The hardware's only modelled autonomous response is the one the driver's
bounded spin loops rely on: issuing a STARTTX / STARTRX task promptly sets
the corresponding TXSTARTED / RXSTARTED event flag, so the
"while not started" spins terminate with the flag set.
-/

namespace uarte

/-- The UARTE register block fields that uarte.rs reads or writes
(pac::uarte0::RegisterBlock). Event registers are booleans (read `bits() != 0`,
cleared by `reset()`), DMA pointer/length and the RXD AMOUNT register are
natural numbers. -/
structure UarteRegs where
  enable : Bool
  events_endtx : Bool
  events_txstarted : Bool
  events_txstopped : Bool
  events_endrx : Bool
  events_rxstarted : Bool
  events_rxto : Bool
  rxd_amount : Nat
  txd_ptr : Nat
  txd_maxcnt : Nat
  rxd_ptr : Nat
  rxd_maxcnt : Nat
deriving Repr, DecidableEq

/-- The per-instance shared state of uarte.rs (`struct State`): two single-slot
notification channels, modelled as Option values. `Signal::signal` stores a
value (overwriting), `reset` clears, `signaled` is a non-consuming query,
`poll_wait` / `wait` consume the value when present. -/
structure State where
  tx_done : Option Unit
  rx_done : Option Nat
deriving Repr, DecidableEq

/-- One memory-mapped register write performed by the driver code. Clearing an
event register (its `reset()`) is a register write like any other. -/
inductive RegWrite where
  | enableOn
  | enableOff
  | txdPtr (v : Nat)
  | txdMaxcnt (v : Nat)
  | rxdPtr (v : Nat)
  | rxdMaxcnt (v : Nat)
  | startTx
  | startRx
  | stopTx
  | stopRx
  | clearTxStarted
  | clearRxStarted
  | clearEndTx
  | clearEndRx
  | clearTxStopped
  | clearRxto
deriving Repr, DecidableEq

/-- Foreground driver state: the owned register block plus the static shared
channel state for this instance. -/
structure DriverState where
  regs : UarteRegs
  st : State
deriving Repr, DecidableEq

/-- Maximum EasyDMA transfer size. The constant comes from the HAL crate
(`crate::hal::target_constants::EASY_DMA_SIZE`), outside this repository;
its concrete value (255 on the smallest targets) is irrelevant to every
theorem below, which only use the comparison against it. -/
def EASY_DMA_SIZE : Nat := 255

/-- `Uarte::on_irq`, the body shared by both directions, acting on a register
block and on one instance's channel state. Translated line by line from
uarte.rs lines 134-188. Returns the updated registers, updated channels and
the trace of register writes the handler performed. -/
def on_irq_core (regs : UarteRegs) (st : State) : UarteRegs × State × List RegWrite := Id.run do
  let mut regs := regs
  let mut st := st
  let mut w : List RegWrite := []
  let mut try_disable := false

  if regs.events_endtx then
    regs := { regs with events_endtx := false }
    w := w ++ [RegWrite.clearEndTx]
    if regs.events_txstarted then
      -- The ENDTX was signal triggered because DMA has finished.
      regs := { regs with events_txstarted := false }
      w := w ++ [RegWrite.clearTxStarted]
      try_disable := true
    st := { st with tx_done := some () }

  if regs.events_txstopped then
    regs := { regs with events_txstopped := false }
    w := w ++ [RegWrite.clearTxStopped]
    try_disable := true

  if regs.events_endrx then
    regs := { regs with events_endrx := false }
    w := w ++ [RegWrite.clearEndRx]
    let len := regs.rxd_amount
    if regs.events_rxstarted then
      -- The ENDRX was signal triggered because DMA buffer is full.
      regs := { regs with events_rxstarted := false }
      w := w ++ [RegWrite.clearRxStarted]
      try_disable := true
    st := { st with rx_done := some len }

  if regs.events_rxto then
    regs := { regs with events_rxto := false }
    w := w ++ [RegWrite.clearRxto]
    try_disable := true

  -- Disable the peripheral if not active.
  if try_disable && !regs.events_txstarted && !regs.events_rxstarted then
    regs := { regs with enable := false }
    w := w ++ [RegWrite.enableOff]

  return (regs, st, w)

/-- `Uart::send` for `Uarte` (uarte.rs lines 200-211): asserts that TX is not
already started, resets the send channel, and builds the future. It performs
no hardware register write; the assertion failure is the none result. -/
def send (d : DriverState) : Option DriverState × List RegWrite :=
  if d.regs.events_txstarted then
    (none, [])
  else
    (some { d with st := { d.st with tx_done := none } }, [])

/-- `Uart::receive` for `Uarte` (uarte.rs lines 223-234): asserts that RX is
not already started, resets the receive channel, and builds the future. -/
def receive (d : DriverState) : Option DriverState × List RegWrite :=
  if d.regs.events_rxstarted then
    (none, [])
  else
    (some { d with st := { d.st with rx_done := none } }, [])

/-- `SendFuture::poll` (uarte.rs lines 273-304). The bool result is true for
`Poll::Ready(Ok(()))` and false for `Poll::Pending`; the outer none is the
`assert!(len <= EASY_DMA_SIZE)` abort. `ptr` and `len` are the borrowed
buffer's address and length. Note the source programs DMA and issues STARTTX
whenever the channel poll is pending, without checking `tx_started`. The spin
`while !uarte.tx_started()` is reflected by STARTTX setting the TXSTARTED
event in the resulting registers. -/
def sendPoll (ptr len : Nat) (d : DriverState) :
    Option (Bool × DriverState) × List RegWrite :=
  match d.st.tx_done with
  | some _ =>
      (some (true, { d with st := { d.st with tx_done := none } }), [])
  | none =>
      if len ≤ EASY_DMA_SIZE then
        let regs := { d.regs with
          enable := true
          txd_ptr := ptr
          txd_maxcnt := len
          events_txstarted := true }
        (some (false, { d with regs := regs }),
          [RegWrite.enableOn, RegWrite.txdPtr ptr, RegWrite.txdMaxcnt len,
           RegWrite.startTx])
      else
        (none, [])

/-- `ReceiveFuture::poll` (uarte.rs lines 341-373). Unlike the send side, the
pending branch programs DMA only when `!uarte.rx_started()`; an already
started pending poll returns Pending without touching hardware. -/
def receivePoll (ptr len : Nat) (d : DriverState) :
    Option (Bool × DriverState) × List RegWrite :=
  match d.st.rx_done with
  | some _ =>
      (some (true, { d with st := { d.st with rx_done := none } }), [])
  | none =>
      if !d.regs.events_rxstarted then
        if len ≤ EASY_DMA_SIZE then
          let regs := { d.regs with
            enable := true
            rxd_ptr := ptr
            rxd_maxcnt := len
            events_rxstarted := true }
          (some (false, { d with regs := regs }),
            [RegWrite.enableOn, RegWrite.rxdPtr ptr, RegWrite.rxdMaxcnt len,
             RegWrite.startRx])
        else
          (none, [])
      else
        (some (false, d), [])

/-- The synchronous part of `SendFuture::drop` (uarte.rs lines 250-264): when
TX is started, clear TXSTARTED and issue STOPTX; otherwise do nothing. The
subsequent spin on the channel is modelled by `sendDropSpinDone`. -/
def sendDrop (d : DriverState) : DriverState × List RegWrite :=
  if d.regs.events_txstarted then
    ({ d with regs := { d.regs with events_txstarted := false } },
      [RegWrite.clearTxStarted, RegWrite.stopTx])
  else
    (d, [])

/-- Exit condition of the `while !T::state().tx_done.signaled() {}` spin in
`SendFuture::drop`: the drop returns exactly when this is true. -/
def sendDropSpinDone (d : DriverState) : Bool :=
  d.st.tx_done.isSome

/-- The synchronous part of `ReceiveFuture::drop` (uarte.rs lines 320-332):
when RX is started, clear RXSTARTED and issue STOPRX; otherwise do nothing.
The subsequent `low_power_wait_until` is modelled by `receiveDropWaitDone`. -/
def receiveDrop (d : DriverState) : DriverState × List RegWrite :=
  if d.regs.events_rxstarted then
    ({ d with regs := { d.regs with events_rxstarted := false } },
      [RegWrite.clearRxStarted, RegWrite.stopRx])
  else
    (d, [])

/-- Exit condition of `util::low_power_wait_until(|| T::state().rx_done.signaled())`
in `ReceiveFuture::drop`: the drop returns exactly when this is true. -/
def receiveDropWaitDone (d : DriverState) : Bool :=
  d.st.rx_done.isSome

/-- The synchronous prefix of `ReceiveFuture::stop` (uarte.rs lines 382-397).
When RX is started it clears RXSTARTED, issues STOPRX and must then await the
receive channel (result component none); otherwise it returns 0 at once
(result component some 0) without any hardware command. -/
def receiveStopStart (d : DriverState) : (DriverState × List RegWrite) × Option Nat :=
  if d.regs.events_rxstarted then
    (({ d with regs := { d.regs with events_rxstarted := false } },
       [RegWrite.clearRxStarted, RegWrite.stopRx]), none)
  else
    ((d, []), some 0)

/-- `T::state().rx_done.wait().await` in `ReceiveFuture::stop`: yields the
channel's value once one is present. -/
def rxWaitValue (st : State) : Option Nat :=
  st.rx_done

/-- The closed set of hardware instances that implement `Instance`
(uarte.rs lines 404-440): UARTE0 and UARTE1. -/
inductive UarteInst where
  | uarte0
  | uarte1
deriving Repr, DecidableEq

/-- Whole-system state for the two-instance model: each instance's register
block plus each instance's static channel state (UARTE0_STATE, UARTE1_STATE). -/
structure Glob where
  regs0 : UarteRegs
  regs1 : UarteRegs
  st0 : State
  st1 : State
deriving Repr, DecidableEq

/-- `T::state()` for each instance. -/
def stateOf (t : UarteInst) (g : Glob) : State :=
  match t with
  | UarteInst.uarte0 => g.st0
  | UarteInst.uarte1 => g.st1

/-- `Uarte::<T>::on_irq` as bound for instance `T` (uarte.rs line 134):
the source always dereferences `pac::UARTE0::ptr()` for the register block, so
the handler operates on UARTE0's registers for every `T`, while signalling the
channels of `T::state()`. -/
def on_irq (t : UarteInst) (g : Glob) : Glob × List RegWrite :=
  let r := on_irq_core g.regs0 (stateOf t g)
  match t with
  | UarteInst.uarte0 => ({ g with regs0 := r.1, st0 := r.2.1 }, r.2.2)
  | UarteInst.uarte1 => ({ g with regs0 := r.1, st1 := r.2.1 }, r.2.2)

end uarte

namespace peripheral

/-- One operation on the interrupt line handle performed by PeripheralMutex
code (peripheral.rs): disabling the line, enabling it, installing the handler,
or removing it. -/
inductive IrqAction where
  | disable
  | enable
  | setHandler
  | removeHandler
deriving Repr, DecidableEq

/-- `PeripheralMutex` (peripheral.rs). All methods the lifecycle claims cite
(`with`, `try_free`, `free`, `Drop::drop`) act on a single
`inner : Option<(UnsafeCell<S>, S::Interrupt)>` field, populated by `new` and
emptied by `try_free`; that field is what is modelled here. -/
structure PeripheralMutex (S I : Type) where
  inner : Option (S × I)
deriving Repr, DecidableEq

/-- `PeripheralMutex::new` (peripheral.rs lines 28-34): wraps the state and
interrupt handle; installs no handler yet. -/
def new (s : S) (i : I) : PeripheralMutex S I :=
  ⟨some (s, i)⟩

/-- `PeripheralMutex::try_free` (peripheral.rs lines 67-74): takes `inner`;
when present, disables the interrupt, removes the handler and returns the
pair; when absent, returns none and performs no interrupt-line action. -/
def try_free (m : PeripheralMutex S I) :
    Option (S × I) × PeripheralMutex S I × List IrqAction :=
  match m.inner with
  | some si => (some si, ⟨none⟩, [IrqAction.disable, IrqAction.removeHandler])
  | none => (none, ⟨none⟩, [])

/-- `PeripheralMutex::free` (peripheral.rs lines 76-78): `unwrap!(try_free())`;
the none result is the fatal unwrap abort on a second release. -/
def free (m : PeripheralMutex S I) :
    Option ((S × I) × PeripheralMutex S I × List IrqAction) :=
  match try_free m with
  | (some si, m2, w) => some ((si, m2, w))
  | (none, _, _) => none

/-- `Drop for PeripheralMutex` (peripheral.rs lines 81-88): the interrupt-line
actions the destructor performs — disable plus handler removal when `inner`
is still populated, nothing otherwise. -/
def dropActions (m : PeripheralMutex S I) : List IrqAction :=
  match m.inner with
  | some _ => [IrqAction.disable, IrqAction.removeHandler]
  | none => []

end peripheral

namespace uarte

/-- An idle register block: peripheral disabled, no event asserted, all DMA
registers zero. -/
def regsIdle : UarteRegs :=
  { enable := false, events_endtx := false, events_txstarted := false,
    events_txstopped := false, events_endrx := false, events_rxstarted := false,
    events_rxto := false, rxd_amount := 0, txd_ptr := 0, txd_maxcnt := 0,
    rxd_ptr := 0, rxd_maxcnt := 0 }

/-- Idle driver: idle registers, both channels empty. -/
def dIdle : DriverState :=
  { regs := regsIdle, st := { tx_done := none, rx_done := none } }

/-- Driver with a transmit transfer in flight (TXSTARTED set) and the send
channel still empty. -/
def dTxStarted : DriverState :=
  { regs := { regsIdle with events_txstarted := true },
    st := { tx_done := none, rx_done := none } }

/-- Driver with a receive transfer in flight (RXSTARTED set) and the receive
channel still empty. -/
def dRxStarted : DriverState :=
  { regs := { regsIdle with events_rxstarted := true },
    st := { tx_done := none, rx_done := none } }

/-- The interrupt handler signals the send channel exactly when ENDTX was
asserted, leaving it untouched otherwise. -/
lemma on_irq_core_tx_done (regs : UarteRegs) (st : State) :
    (on_irq_core regs st).2.1.tx_done =
      (if regs.events_endtx then some () else st.tx_done) := by
  obtain ⟨en, etx, txs, txst, erx, rxs, rxto, amt, tp, tm, rp, rm⟩ := regs
  cases etx <;> cases txs <;> cases txst <;> cases erx <;> cases rxs <;> cases rxto <;>
    simp [on_irq_core, Id.run]

/-- The interrupt handler signals the receive channel with the AMOUNT register
value exactly when ENDRX was asserted, leaving it untouched otherwise. -/
lemma on_irq_core_rx_done (regs : UarteRegs) (st : State) :
    (on_irq_core regs st).2.1.rx_done =
      (if regs.events_endrx then some regs.rxd_amount else st.rx_done) := by
  obtain ⟨en, etx, txs, txst, erx, rxs, rxto, amt, tp, tm, rp, rm⟩ := regs
  cases etx <;> cases txs <;> cases txst <;> cases erx <;> cases rxs <;> cases rxto <;>
    simp [on_irq_core, Id.run]

end uarte

namespace uarte

/-- Claim C1: dropping a send or receive operation whose transfer has started
but not completed clears the started flag, issues the stop command, and its
wait loop exits exactly when the completion channel holds a value; dropping
one whose transfer never started performs no hardware action at all. -/
theorem c1_drop_cancellation (d e p q : DriverState)
    (hd : d.regs.events_txstarted = true)
    (he : e.regs.events_txstarted = false)
    (hp : p.regs.events_rxstarted = true)
    (hq : q.regs.events_rxstarted = false) :
    (sendDrop d).2 = [RegWrite.clearTxStarted, RegWrite.stopTx] ∧
    (sendDrop d).1.regs.events_txstarted = false ∧
    (sendDropSpinDone (sendDrop d).1 = true ↔ (sendDrop d).1.st.tx_done ≠ none) ∧
    sendDrop e = (e, []) ∧
    (receiveDrop p).2 = [RegWrite.clearRxStarted, RegWrite.stopRx] ∧
    (receiveDrop p).1.regs.events_rxstarted = false ∧
    (receiveDropWaitDone (receiveDrop p).1 = true ↔ (receiveDrop p).1.st.rx_done ≠ none) ∧
    receiveDrop q = (q, []) := by
  simp [sendDrop, receiveDrop, sendDropSpinDone, receiveDropWaitDone,
    hd, he, hp, hq, Option.isSome_iff_ne_none]

/-- Claim C1 witness: the cancellation facts at concrete started / idle
driver states. -/
theorem c1_drop_cancellation_witness :
    (sendDrop dTxStarted).2 = [RegWrite.clearTxStarted, RegWrite.stopTx] ∧
    (sendDrop dTxStarted).1.regs.events_txstarted = false ∧
    (sendDropSpinDone (sendDrop dTxStarted).1 = true ↔
      (sendDrop dTxStarted).1.st.tx_done ≠ none) ∧
    sendDrop dIdle = (dIdle, []) ∧
    (receiveDrop dRxStarted).2 = [RegWrite.clearRxStarted, RegWrite.stopRx] ∧
    (receiveDrop dRxStarted).1.regs.events_rxstarted = false ∧
    (receiveDropWaitDone (receiveDrop dRxStarted).1 = true ↔
      (receiveDrop dRxStarted).1.st.rx_done ≠ none) ∧
    receiveDrop dIdle = (dIdle, []) :=
  c1_drop_cancellation dTxStarted dIdle dRxStarted dIdle rfl rfl rfl rfl

/-- Claim C2, evaluated at the failing input: a send poll taken while
TXSTARTED is set and the send channel is empty does return Pending (false),
but re-enables the peripheral, re-programs the TXD pointer and length
registers and issues STARTTX again, contradicting the claimed absence of
hardware register writes; the receive poll in the analogous state really does
return Pending with no register write. -/
theorem c2_send_poll_started_pending_writes :
    sendPoll 0 1 dTxStarted =
      (some (false,
        { regs :=
            { regsIdle with
                events_txstarted := true
                enable := true
                txd_ptr := 0
                txd_maxcnt := 1 },
          st := { tx_done := none, rx_done := none } }),
       [RegWrite.enableOn, RegWrite.txdPtr 0, RegWrite.txdMaxcnt 1,
        RegWrite.startTx]) ∧
    receivePoll 0 1 dRxStarted = (some (false, dRxStarted), []) := by
  constructor <;> rfl

/-- Claim C3: starting a send while TXSTARTED is set, or a receive while
RXSTARTED is set, aborts with no register write; with the flag clear the call
returns the operation object, resets the direction's channel, and still
writes no register. -/
theorem c3_start_exclusivity (d e p q : DriverState)
    (hd : d.regs.events_txstarted = true)
    (he : e.regs.events_txstarted = false)
    (hp : p.regs.events_rxstarted = true)
    (hq : q.regs.events_rxstarted = false) :
    send d = (none, []) ∧
    send e = (some { e with st := { e.st with tx_done := none } }, []) ∧
    receive p = (none, []) ∧
    receive q = (some { q with st := { q.st with rx_done := none } }, []) := by
  simp [send, receive, hd, he, hp, hq]

/-- Claim C3 witness: exclusivity at concrete started / idle driver states. -/
theorem c3_start_exclusivity_witness :
    send dTxStarted = (none, []) ∧
    send dIdle = (some { dIdle with st := { dIdle.st with tx_done := none } }, []) ∧
    receive dRxStarted = (none, []) ∧
    receive dIdle = (some { dIdle with st := { dIdle.st with rx_done := none } }, []) :=
  c3_start_exclusivity dTxStarted dIdle dRxStarted dIdle rfl rfl rfl rfl

/-- Claim C4: a first poll with buffer length within EASY_DMA_SIZE programs
exactly that length into the direction's MAXCNT register (both in the write
trace and in the resulting register state); with length above the bound the
poll aborts having performed no register write. -/
theorem c4_buffer_length_bound (ptr la lb : Nat) (d e : DriverState)
    (hla : la ≤ EASY_DMA_SIZE) (hlb : EASY_DMA_SIZE < lb)
    (htx : d.st.tx_done = none)
    (hrx : e.st.rx_done = none) (hrs : e.regs.events_rxstarted = false) :
    (sendPoll ptr la d).2 =
      [RegWrite.enableOn, RegWrite.txdPtr ptr, RegWrite.txdMaxcnt la,
       RegWrite.startTx] ∧
    (∃ d2, (sendPoll ptr la d).1 = some (false, d2) ∧ d2.regs.txd_maxcnt = la) ∧
    sendPoll ptr lb d = (none, []) ∧
    (receivePoll ptr la e).2 =
      [RegWrite.enableOn, RegWrite.rxdPtr ptr, RegWrite.rxdMaxcnt la,
       RegWrite.startRx] ∧
    (∃ e2, (receivePoll ptr la e).1 = some (false, e2) ∧ e2.regs.rxd_maxcnt = la) ∧
    receivePoll ptr lb e = (none, []) := by
  have hlb2 : ¬ (lb ≤ EASY_DMA_SIZE) := Nat.not_le.mpr hlb
  have hs : (sendPoll ptr la d).1 =
      some (false, { d with regs := { d.regs with
        enable := true
        txd_ptr := ptr
        txd_maxcnt := la
        events_txstarted := true } }) := by
    simp [sendPoll, htx, hla]
  have hr2 : (receivePoll ptr la e).1 =
      some (false, { e with regs := { e.regs with
        enable := true
        rxd_ptr := ptr
        rxd_maxcnt := la
        events_rxstarted := true } }) := by
    simp [receivePoll, hrx, hrs, hla]
  refine ⟨?_, ⟨_, hs, by simp⟩, ?_, ?_, ⟨_, hr2, by simp⟩, ?_⟩ <;>
    simp [sendPoll, receivePoll, htx, hrx, hrs, hla, hlb2]

/-- Claim C4 witness: length bound at concrete states, lengths 1 and 256. -/
theorem c4_buffer_length_bound_witness :
    (sendPoll 0 1 dIdle).2 =
      [RegWrite.enableOn, RegWrite.txdPtr 0, RegWrite.txdMaxcnt 1,
       RegWrite.startTx] ∧
    (∃ d2, (sendPoll 0 1 dIdle).1 = some (false, d2) ∧ d2.regs.txd_maxcnt = 1) ∧
    sendPoll 0 256 dIdle = (none, []) ∧
    (receivePoll 0 1 dIdle).2 =
      [RegWrite.enableOn, RegWrite.rxdPtr 0, RegWrite.rxdMaxcnt 1,
       RegWrite.startRx] ∧
    (∃ e2, (receivePoll 0 1 dIdle).1 = some (false, e2) ∧ e2.regs.rxd_maxcnt = 1) ∧
    receivePoll 0 256 dIdle = (none, []) :=
  c4_buffer_length_bound 0 1 256 dIdle dIdle (by decide) (by decide) rfl rfl rfl

/-- Claim C5: one interrupt-handler invocation disables the peripheral exactly
when some processed event marked attempt-power-down (ENDTX with TXSTARTED,
TXSTOPPED, ENDRX with RXSTARTED, or RXTO) and, after all events of the
invocation are processed, neither direction's started flag remains set. -/
theorem c5_power_down_aggregate (regs : UarteRegs) (st : State) :
    RegWrite.enableOff ∈ (on_irq_core regs st).2.2 ↔
      (((regs.events_endtx && regs.events_txstarted) || regs.events_txstopped ||
        (regs.events_endrx && regs.events_rxstarted) || regs.events_rxto) = true ∧
       (regs.events_txstarted && !regs.events_endtx) = false ∧
       (regs.events_rxstarted && !regs.events_endrx) = false) := by
  obtain ⟨en, etx, txs, txst, erx, rxs, rxto, amt, tp, tm, rp, rm⟩ := regs
  cases etx <;> cases txs <;> cases txst <;> cases erx <;> cases rxs <;> cases rxto <;>
    simp [on_irq_core, Id.run]

/-- Claim C6: stopping a started receive clears RXSTARTED, issues STOPRX, and
then awaits the receive channel, whose value after the interrupt handler runs
on any registers with ENDRX asserted is exactly the AMOUNT register's byte
count K; stopping a receive that never started returns 0 immediately with no
hardware command. -/
theorem c6_stop_byte_accounting (d e : DriverState) (regs2 : UarteRegs) (K : Nat)
    (hd : d.regs.events_rxstarted = true)
    (he : e.regs.events_rxstarted = false)
    (hendrx : regs2.events_endrx = true)
    (hK : regs2.rxd_amount = K) :
    receiveStopStart e = ((e, []), some 0) ∧
    (receiveStopStart d).1.2 = [RegWrite.clearRxStarted, RegWrite.stopRx] ∧
    (receiveStopStart d).2 = none ∧
    rxWaitValue (on_irq_core regs2 ((receiveStopStart d).1.1).st).2.1 = some K := by
  refine ⟨?_, ?_, ?_, ?_⟩
  · simp [receiveStopStart, he]
  · simp [receiveStopStart, hd]
  · simp [receiveStopStart, hd]
  · simp [rxWaitValue, on_irq_core_rx_done, hendrx, hK]

/-- Claim C6 witness: byte accounting at a concrete started receive, with the
handler observing ENDRX and AMOUNT = 5. -/
theorem c6_stop_byte_accounting_witness :
    receiveStopStart dIdle = ((dIdle, []), some 0) ∧
    (receiveStopStart dRxStarted).1.2 = [RegWrite.clearRxStarted, RegWrite.stopRx] ∧
    (receiveStopStart dRxStarted).2 = none ∧
    rxWaitValue (on_irq_core { regsIdle with events_endrx := true, rxd_amount := 5 }
      ((receiveStopStart dRxStarted).1.1).st).2.1 = some 5 :=
  c6_stop_byte_accounting dRxStarted dIdle
    { regsIdle with events_endrx := true, rxd_amount := 5 } 5 rfl rfl rfl rfl

/-- Claim C9: send resets the send channel and receive resets the receive
channel before returning the operation object, so the first poll of the new
operation never finds the channel ready and cannot consume a previous
operation's completion value. -/
theorem c9_new_op_channel_reset (d e : DriverState) (ptr len : Nat)
    (hd : d.regs.events_txstarted = false)
    (he : e.regs.events_rxstarted = false) :
    ∃ d2 e2, (send d).1 = some d2 ∧ d2.st.tx_done = none ∧
      (∀ r, (sendPoll ptr len d2).1 = some r → r.1 = false) ∧
      (receive e).1 = some e2 ∧ e2.st.rx_done = none ∧
      (∀ r, (receivePoll ptr len e2).1 = some r → r.1 = false) := by
  refine ⟨{ d with st := { d.st with tx_done := none } },
          { e with st := { e.st with rx_done := none } },
          ?_, rfl, ?_, ?_, rfl, ?_⟩
  · simp [send, hd]
  · intro r hr
    by_cases hlen : len ≤ EASY_DMA_SIZE
    · simp [sendPoll, hlen] at hr
      subst hr
      rfl
    · simp [sendPoll, hlen] at hr
  · simp [receive, he]
  · intro r hr
    by_cases hlen : len ≤ EASY_DMA_SIZE
    · simp [receivePoll, he, hlen] at hr
      subst hr
      rfl
    · simp [receivePoll, he, hlen] at hr

/-- Claim C9 witness: channel reset facts at the idle driver state with a
one-byte buffer. -/
theorem c9_new_op_channel_reset_witness :
    ∃ d2 e2, (send dIdle).1 = some d2 ∧ d2.st.tx_done = none ∧
      (∀ r, (sendPoll 0 1 d2).1 = some r → r.1 = false) ∧
      (receive dIdle).1 = some e2 ∧ e2.st.rx_done = none ∧
      (∀ r, (receivePoll 0 1 e2).1 = some r → r.1 = false) :=
  c9_new_op_channel_reset dIdle dIdle 0 1 rfl rfl

/-- Claim C10: stop on a started receive clears RXSTARTED and issues STOPRX;
the subsequent destructor then sees the flag clear, performs no action and no
wait, so STOPRX is issued exactly once over the operation's lifetime. -/
theorem c10_stop_then_drop_single_stop (d : DriverState)
    (hd : d.regs.events_rxstarted = true) :
    (receiveStopStart d).1.2 = [RegWrite.clearRxStarted, RegWrite.stopRx] ∧
    ((receiveStopStart d).1.1).regs.events_rxstarted = false ∧
    receiveDrop (receiveStopStart d).1.1 = ((receiveStopStart d).1.1, []) ∧
    ((receiveStopStart d).1.2 ++
      (receiveDrop (receiveStopStart d).1.1).2).count RegWrite.stopRx = 1 := by
  simp [receiveStopStart, receiveDrop, hd, List.count]

/-- Claim C10 witness: the single-stop facts at the concrete started receive
state. -/
theorem c10_stop_then_drop_single_stop_witness :
    (receiveStopStart dRxStarted).1.2 = [RegWrite.clearRxStarted, RegWrite.stopRx] ∧
    ((receiveStopStart dRxStarted).1.1).regs.events_rxstarted = false ∧
    receiveDrop (receiveStopStart dRxStarted).1.1 =
      ((receiveStopStart dRxStarted).1.1, []) ∧
    ((receiveStopStart dRxStarted).1.2 ++
      (receiveDrop (receiveStopStart dRxStarted).1.1).2).count RegWrite.stopRx = 1 :=
  c10_stop_then_drop_single_stop dRxStarted rfl

/-- Claim C8: the handler bound for instance UARTE1 modifies only UARTE0's
register block (UARTE1's registers are untouched) yet signals UARTE1's own
channels, and it does so according to UARTE0's event flags and AMOUNT
register; UARTE0's channels are untouched by UARTE1's handler. -/
theorem c8_irq_uarte0_hardcoded (g : Glob) :
    (on_irq UarteInst.uarte1 g).1.regs1 = g.regs1 ∧
    (on_irq UarteInst.uarte1 g).1.st0 = g.st0 ∧
    (on_irq UarteInst.uarte1 g).1.regs0 = (on_irq_core g.regs0 g.st1).1 ∧
    (on_irq UarteInst.uarte1 g).1.st1.tx_done =
      (if g.regs0.events_endtx then some () else g.st1.tx_done) ∧
    (on_irq UarteInst.uarte1 g).1.st1.rx_done =
      (if g.regs0.events_endrx then some g.regs0.rxd_amount else g.st1.rx_done) ∧
    (on_irq UarteInst.uarte0 g).1.st1 = g.st1 ∧
    (on_irq UarteInst.uarte0 g).1.regs1 = g.regs1 := by
  refine ⟨rfl, rfl, rfl, ?_, ?_, rfl, rfl⟩
  · simp [on_irq, stateOf, on_irq_core_tx_done]
  · simp [on_irq, stateOf, on_irq_core_rx_done]

end uarte

namespace peripheral

/-- Claim C7: releasing a populated PeripheralMutex returns the state and
interrupt pair while disabling the line and detaching the handler; on the
resulting freed mutex, try_free returns nothing, free aborts, and the
destructor performs no interrupt-line action. -/
theorem c7_mutex_release_idempotent {S I : Type} (m : PeripheralMutex S I)
    (s : S) (i : I) (h : m.inner = some (s, i)) :
    try_free m =
      (some (s, i), ⟨none⟩, [IrqAction.disable, IrqAction.removeHandler]) ∧
    (try_free (try_free m).2.1).1 = none ∧
    free (try_free m).2.1 = none ∧
    dropActions (try_free m).2.1 = [] := by
  simp [try_free, free, dropActions, h]

/-- Claim C7 witness: the lifecycle facts at a concrete mutex over Nat state
and a Nat interrupt handle. -/
theorem c7_mutex_release_idempotent_witness :
    try_free (new 3 7 : PeripheralMutex Nat Nat) =
      (some (3, 7), ⟨none⟩, [IrqAction.disable, IrqAction.removeHandler]) ∧
    (try_free (try_free (new 3 7 : PeripheralMutex Nat Nat)).2.1).1 = none ∧
    free (try_free (new 3 7 : PeripheralMutex Nat Nat)).2.1 = none ∧
    dropActions (try_free (new 3 7 : PeripheralMutex Nat Nat)).2.1 = [] :=
  c7_mutex_release_idempotent (new 3 7) 3 7 rfl

end peripheral
